import Mathlib

/-!
Verification of the GO/NO-GO fleet-electrification estimation engine
(`estimate` in `app.py`), shallowly embedded over `ℚ`.

Modelling conventions:
* Python floats are modelled as exact rationals (`ℚ`); Python ints as `ℤ`.
* `float("inf")`, used by the source as the "no payback" sentinel, is
  modelled as `none : Option ℚ`; a finite payback is `some x`.  The source
  comparison `payback_years <= threshold` (false for `inf`) is `paybackLe`.
* Python `int(x)` (truncation toward zero) is `ratTrunc`.
* `math.ceil` on a true-division quotient is `Int.ceil` of the exact
  rational quotient.
-/

namespace JosaGoNoGo

/-- The `Params` dataclass of `app.py` (lines 57-86), with the same field
names and the same default values. -/
structure Params where
  charging_window_hours : ℚ := 10
  working_days : ℤ := 240
  ac_rotation : ℤ := 2
  dc_rotation : ℤ := 6
  ac_power_effective_kw : ℚ := 11
  dc30_power_kw : ℚ := 30
  dc60_power_kw : ℚ := 60
  ac22_acq_eur : ℚ := 1500
  ac22_ins_eur : ℚ := 1600
  dc30_acq_eur : ℚ := 8500
  dc30_ins_eur : ℚ := 7500
  dc60_acq_eur : ℚ := 16000
  dc60_ins_eur : ℚ := 7500
  ev_kwh_per_km : ℚ := 0.22
  energy_internal_eur_per_kwh : ℚ := 0.22
  diesel_km_per_l : ℚ := 15
  diesel_eur_per_l : ℚ := 1.75
  diesel_kgco2_per_l : ℚ := 2.65
  trees_per_ton_co2 : ℤ := 50
  payback_threshold_years : ℚ := 4
  peak_factor : ℚ := 1.25
deriving DecidableEq

/-- `Params()` with every field at its declared default. -/
def defaultParams : Params := {}

/-- Python `int(x)`: truncation toward zero. -/
def ratTrunc (q : ℚ) : ℤ := if 0 ≤ q then ⌊q⌋ else ⌈q⌉

/-- The comparison `x <= t` where `x` may be the infinite sentinel
(`none` models `float("inf")`, for which the comparison is false). -/
def paybackLe : Option ℚ → ℚ → Bool
  | some x, t => decide (x ≤ t)
  | none, _ => false

/-- The three hardware tiers of the sizing branch (lines 106-125). -/
inductive Tier
  | ac
  | dc30
  | dc60
deriving DecidableEq

/-- `km_total_year = N * km_per_vehicle_year` (line 90). -/
def km_total_year (N : ℤ) (km_per_vehicle_year : ℚ) : ℚ :=
  (N : ℚ) * km_per_vehicle_year

/-- `kwh_total_year = km_total_year * p.ev_kwh_per_km` (line 91). -/
def kwh_total_year (N : ℤ) (km_per_vehicle_year : ℚ) (p : Params) : ℚ :=
  km_total_year N km_per_vehicle_year * p.ev_kwh_per_km

/-- `km_per_vehicle_day = km_per_vehicle_year / float(p.working_days)` (line 94). -/
def km_per_vehicle_day (km_per_vehicle_year : ℚ) (p : Params) : ℚ :=
  km_per_vehicle_year / (p.working_days : ℚ)

/-- `kwh_per_vehicle_day = km_per_vehicle_day * p.ev_kwh_per_km` (line 95). -/
def kwh_per_vehicle_day (km_per_vehicle_year : ℚ) (p : Params) : ℚ :=
  km_per_vehicle_day km_per_vehicle_year p * p.ev_kwh_per_km

/-- `kwh_total_day_avg = N * kwh_per_vehicle_day` (line 97). -/
def kwh_total_day_avg (N : ℤ) (km_per_vehicle_year : ℚ) (p : Params) : ℚ :=
  (N : ℚ) * kwh_per_vehicle_day km_per_vehicle_year p

/-- `kwh_total_day_peak = kwh_total_day_avg * p.peak_factor` (line 98). -/
def kwh_total_day_peak (N : ℤ) (km_per_vehicle_year : ℚ) (p : Params) : ℚ :=
  kwh_total_day_avg N km_per_vehicle_year p * p.peak_factor

/-- Per-station daily energy for each tier:
`kwh_ac_day`, `kwh_dc30_day`, `kwh_dc60_day` (lines 100-102). -/
def tier_station_kwh_day (p : Params) : Tier → ℚ
  | Tier.ac => p.ac_power_effective_kw * p.charging_window_hours
  | Tier.dc30 => p.dc30_power_kw * p.charging_window_hours
  | Tier.dc60 => p.dc60_power_kw * p.charging_window_hours

/-- The tier chosen by the branch structure of lines 104-125:
`needs_dc = kwh_per_vehicle_day > 55.0`; if not AC; within DC,
`use_dc60 = kwh_per_vehicle_day > 90.0` selects DC60 else DC30. -/
def selected_tier (km_per_vehicle_year : ℚ) (p : Params) : Tier :=
  if ¬ (55 < kwh_per_vehicle_day km_per_vehicle_year p) then Tier.ac
  else if 90 < kwh_per_vehicle_day km_per_vehicle_year p then Tier.dc60
  else Tier.dc30

/-- Rotation capacity used for the chosen tier: `p.ac_rotation` in the AC
branch (line 107), `p.dc_rotation` in both DC branches (lines 115, 121). -/
def tier_rotation (p : Params) : Tier → ℤ
  | Tier.ac => p.ac_rotation
  | Tier.dc30 => p.dc_rotation
  | Tier.dc60 => p.dc_rotation

/-- Per-station acquisition + installation cost of each tier
(lines 110, 118, 124). -/
def tier_unit_cost (p : Params) : Tier → ℚ
  | Tier.ac => p.ac22_acq_eur + p.ac22_ins_eur
  | Tier.dc30 => p.dc30_acq_eur + p.dc30_ins_eur
  | Tier.dc60 => p.dc60_acq_eur + p.dc60_ins_eur

/-- The `hardware` label of each sizing branch (lines 111, 119, 125). -/
def tier_label : Tier → String
  | Tier.ac => "AC 22kW (eff. 11kW)"
  | Tier.dc30 => "DC 30kW"
  | Tier.dc60 => "DC 60kW"

/-- `q_by_rotation = ceil(N / rotation)` for the selected tier
(lines 107, 115, 121). -/
def q_by_rotation (N : ℤ) (km_per_vehicle_year : ℚ) (p : Params) : ℤ :=
  ⌈(N : ℚ) / (tier_rotation p (selected_tier km_per_vehicle_year p) : ℚ)⌉

/-- `q_by_energy = ceil(kwh_total_day_peak / kwh_tier_day) if
kwh_total_day_peak > 0 else 0` for the selected tier (lines 108, 116, 122). -/
def q_by_energy (N : ℤ) (km_per_vehicle_year : ℚ) (p : Params) : ℤ :=
  if 0 < kwh_total_day_peak N km_per_vehicle_year p then
    ⌈kwh_total_day_peak N km_per_vehicle_year p /
      tier_station_kwh_day p (selected_tier km_per_vehicle_year p)⌉
  else 0

/-- `q = max(q_by_rotation, q_by_energy)` (lines 109, 117, 123). -/
def points (N : ℤ) (km_per_vehicle_year : ℚ) (p : Params) : ℤ :=
  max (q_by_rotation N km_per_vehicle_year p) (q_by_energy N km_per_vehicle_year p)

/-- `capex = q * (acq + ins)` for the selected tier (lines 110, 118, 124). -/
def capex (N : ℤ) (km_per_vehicle_year : ℚ) (p : Params) : ℚ :=
  (points N km_per_vehicle_year p : ℚ) *
    tier_unit_cost p (selected_tier km_per_vehicle_year p)

/-- `diesel_liters_year = km_total_year / p.diesel_km_per_l if
p.diesel_km_per_l > 0 else 0.0` (line 128). -/
def diesel_liters_year (N : ℤ) (km_per_vehicle_year : ℚ) (p : Params) : ℚ :=
  if 0 < p.diesel_km_per_l then
    km_total_year N km_per_vehicle_year / p.diesel_km_per_l
  else 0

/-- `diesel_cost_year = diesel_liters_year * p.diesel_eur_per_l` (line 129). -/
def diesel_cost_year (N : ℤ) (km_per_vehicle_year : ℚ) (p : Params) : ℚ :=
  diesel_liters_year N km_per_vehicle_year p * p.diesel_eur_per_l

/-- `ev_energy_cost_year = kwh_total_year * p.energy_internal_eur_per_kwh`
(line 130). -/
def ev_energy_cost_year (N : ℤ) (km_per_vehicle_year : ℚ) (p : Params) : ℚ :=
  kwh_total_year N km_per_vehicle_year p * p.energy_internal_eur_per_kwh

/-- `delta_fossil_year = diesel_cost_year - ev_energy_cost_year` (line 131). -/
def delta_fossil_year (N : ℤ) (km_per_vehicle_year : ℚ) (p : Params) : ℚ :=
  diesel_cost_year N km_per_vehicle_year p - ev_energy_cost_year N km_per_vehicle_year p

/-- `payback_years = (capex / delta_fossil_year) if delta_fossil_year > 0
else float("inf")` (line 133); `none` models the infinite sentinel. -/
def payback_years (N : ℤ) (km_per_vehicle_year : ℚ) (p : Params) : Option ℚ :=
  if 0 < delta_fossil_year N km_per_vehicle_year p then
    some (capex N km_per_vehicle_year p / delta_fossil_year N km_per_vehicle_year p)
  else none

/-- `decision = "GO" if (delta_fossil_year > 0 and payback_years <=
p.payback_threshold_years) else "NO-GO"` (line 134). -/
def decision (N : ℤ) (km_per_vehicle_year : ℚ) (p : Params) : String :=
  if 0 < delta_fossil_year N km_per_vehicle_year p ∧
      paybackLe (payback_years N km_per_vehicle_year p) p.payback_threshold_years = true then
    "GO"
  else "NO-GO"

/-- `co2_avoided_tons_year = (diesel_liters_year * p.diesel_kgco2_per_l) / 1000.0`
(line 137). -/
def co2_avoided_tons_year (N : ℤ) (km_per_vehicle_year : ℚ) (p : Params) : ℚ :=
  diesel_liters_year N km_per_vehicle_year p * p.diesel_kgco2_per_l / 1000

/-- `co2_avoided_kg_year = co2_avoided_tons_year * 1000.0` (line 138). -/
def co2_avoided_kg_year (N : ℤ) (km_per_vehicle_year : ℚ) (p : Params) : ℚ :=
  co2_avoided_tons_year N km_per_vehicle_year p * 1000

/-- `co2_avoided_kg_per_vehicle_year = co2_avoided_kg_year / N` (line 139). -/
def co2_avoided_kg_per_vehicle_year (N : ℤ) (km_per_vehicle_year : ℚ) (p : Params) : ℚ :=
  co2_avoided_kg_year N km_per_vehicle_year p / (N : ℚ)

/-- `co2_avoided_g_per_km = (co2_avoided_kg_year * 1000.0) / km_total_year
if km_total_year > 0 else 0.0` (line 140). -/
def co2_avoided_g_per_km (N : ℤ) (km_per_vehicle_year : ℚ) (p : Params) : ℚ :=
  if 0 < km_total_year N km_per_vehicle_year then
    co2_avoided_kg_year N km_per_vehicle_year p * 1000 / km_total_year N km_per_vehicle_year
  else 0

/-- `trees_equivalent = int(co2_avoided_tons_year * p.trees_per_ton_co2)`
(line 141). -/
def trees_equivalent (N : ℤ) (km_per_vehicle_year : ℚ) (p : Params) : ℤ :=
  ratTrunc (co2_avoided_tons_year N km_per_vehicle_year p * (p.trees_per_ton_co2 : ℚ))

/-- The rating band of lines 143-150. -/
def esg_rating (N : ℤ) (km_per_vehicle_year : ℚ) (p : Params) : String :=
  if 10 ≤ co2_avoided_tons_year N km_per_vehicle_year p then "AAA"
  else if 3 ≤ co2_avoided_tons_year N km_per_vehicle_year p then "AA"
  else if 1 ≤ co2_avoided_tons_year N km_per_vehicle_year p then "A"
  else "B"

/-- The nested result dictionary returned by `estimate` (lines 152-178),
flattened into one structure; field names follow the source's local
variables / dictionary keys. -/
structure Result where
  N : ℤ
  km_per_vehicle_year : ℚ
  km_total_year : ℚ
  working_days : ℤ
  kwh_per_vehicle_day : ℚ
  kwh_total_day_avg : ℚ
  kwh_total_day_peak : ℚ
  kwh_total_year : ℚ
  hardware : String
  points : ℤ
  by_rotation : ℤ
  by_energy : ℤ
  kwh_per_station_day : ℚ
  capex_eur : ℚ
  diesel_cost_year_eur : ℚ
  ev_energy_cost_year_eur : ℚ
  delta_fossil_year_eur : ℚ
  payback_years_hw_only : Option ℚ
  decision : String
  diesel_avoided_liters_year : ℚ
  co2_avoided_tons_year : ℚ
  co2_avoided_kg_per_vehicle_year : ℚ
  co2_avoided_g_per_km : ℚ
  trees_equivalent : ℤ
  esg_rating : String
deriving DecidableEq

/-- `estimate(N, km_per_vehicle_year, p)` (lines 89-178): the full engine,
assembling every reported quantity from the per-line definitions above. -/
def estimate (N : ℤ) (km_per_vehicle_year : ℚ) (p : Params) : Result where
  N := N
  km_per_vehicle_year := km_per_vehicle_year
  km_total_year := km_total_year N km_per_vehicle_year
  working_days := p.working_days
  kwh_per_vehicle_day := kwh_per_vehicle_day km_per_vehicle_year p
  kwh_total_day_avg := kwh_total_day_avg N km_per_vehicle_year p
  kwh_total_day_peak := kwh_total_day_peak N km_per_vehicle_year p
  kwh_total_year := kwh_total_year N km_per_vehicle_year p
  hardware := tier_label (selected_tier km_per_vehicle_year p)
  points := points N km_per_vehicle_year p
  by_rotation := q_by_rotation N km_per_vehicle_year p
  by_energy := q_by_energy N km_per_vehicle_year p
  kwh_per_station_day := tier_station_kwh_day p (selected_tier km_per_vehicle_year p)
  capex_eur := capex N km_per_vehicle_year p
  diesel_cost_year_eur := diesel_cost_year N km_per_vehicle_year p
  ev_energy_cost_year_eur := ev_energy_cost_year N km_per_vehicle_year p
  delta_fossil_year_eur := delta_fossil_year N km_per_vehicle_year p
  payback_years_hw_only := payback_years N km_per_vehicle_year p
  decision := decision N km_per_vehicle_year p
  diesel_avoided_liters_year := diesel_liters_year N km_per_vehicle_year p
  co2_avoided_tons_year := co2_avoided_tons_year N km_per_vehicle_year p
  co2_avoided_kg_per_vehicle_year := co2_avoided_kg_per_vehicle_year N km_per_vehicle_year p
  co2_avoided_g_per_km := co2_avoided_g_per_km N km_per_vehicle_year p
  trees_equivalent := trees_equivalent N km_per_vehicle_year p
  esg_rating := esg_rating N km_per_vehicle_year p

/-! Evaluation of the engine on the demo scenario `estimate(11, 30000, Params())`,
one lemma per intermediate quantity. -/

lemma demo_kwh_per_vehicle_day : kwh_per_vehicle_day 30000 defaultParams = 55/2 := by
  norm_num [kwh_per_vehicle_day, km_per_vehicle_day, defaultParams]

lemma demo_tier : selected_tier 30000 defaultParams = Tier.ac := by
  rw [selected_tier, demo_kwh_per_vehicle_day]
  norm_num

lemma demo_peak : kwh_total_day_peak 11 30000 defaultParams = 3025/8 := by
  rw [kwh_total_day_peak, kwh_total_day_avg, demo_kwh_per_vehicle_day]
  norm_num [defaultParams]

lemma demo_q_by_rotation : q_by_rotation 11 30000 defaultParams = 6 := by
  rw [q_by_rotation, demo_tier]
  simp only [tier_rotation, defaultParams]
  rw [Int.ceil_eq_iff]
  norm_num

lemma demo_q_by_energy : q_by_energy 11 30000 defaultParams = 4 := by
  rw [q_by_energy]
  rw [demo_peak, if_pos (by norm_num : (0:ℚ) < 3025/8)]
  rw [demo_tier]
  simp only [tier_station_kwh_day, defaultParams]
  rw [Int.ceil_eq_iff]
  norm_num

lemma demo_points : points 11 30000 defaultParams = 6 := by
  rw [points, demo_q_by_rotation, demo_q_by_energy]
  decide

lemma demo_capex : capex 11 30000 defaultParams = 18600 := by
  rw [capex, demo_points, demo_tier]
  simp only [tier_unit_cost, defaultParams]
  norm_num

lemma demo_km_total : km_total_year 11 30000 = 330000 := by
  norm_num [km_total_year]

lemma demo_kwh_total_year : kwh_total_year 11 30000 defaultParams = 72600 := by
  norm_num [kwh_total_year, demo_km_total, defaultParams]

lemma demo_liters : diesel_liters_year 11 30000 defaultParams = 22000 := by
  rw [diesel_liters_year, if_pos (by norm_num [defaultParams] : (0:ℚ) < defaultParams.diesel_km_per_l)]
  rw [demo_km_total]
  norm_num [defaultParams]

lemma demo_diesel_cost : diesel_cost_year 11 30000 defaultParams = 38500 := by
  rw [diesel_cost_year, demo_liters]
  norm_num [defaultParams]

lemma demo_ev_cost : ev_energy_cost_year 11 30000 defaultParams = 15972 := by
  rw [ev_energy_cost_year, demo_kwh_total_year]
  norm_num [defaultParams]

lemma demo_delta : delta_fossil_year 11 30000 defaultParams = 22528 := by
  norm_num [delta_fossil_year, demo_diesel_cost, demo_ev_cost]

lemma demo_payback : payback_years 11 30000 defaultParams = some (2325/2816) := by
  rw [payback_years, if_pos (by rw [demo_delta]; norm_num)]
  rw [demo_delta, demo_capex]
  norm_num

lemma demo_decision : decision 11 30000 defaultParams = "GO" := by
  rw [decision, if_pos]
  refine ⟨by rw [demo_delta]; norm_num, ?_⟩
  rw [demo_payback]
  simp only [paybackLe, decide_eq_true_eq]
  norm_num [defaultParams]

lemma demo_co2 : co2_avoided_tons_year 11 30000 defaultParams = 583/10 := by
  rw [co2_avoided_tons_year, demo_liters]
  norm_num [defaultParams]

lemma demo_trees : trees_equivalent 11 30000 defaultParams = 2915 := by
  rw [trees_equivalent, demo_co2]
  rw [ratTrunc, if_pos (by norm_num [defaultParams])]
  norm_num [defaultParams]

/-- C1: the decision returned by `estimate` is GO if and only if both
`delta_fossil_year > 0` and `payback_years ≤ payback_threshold_years` hold
(the comparison being false for the infinite-payback sentinel), for every
input with `N ≥ 1`, `km ≥ 0` and every configuration; in particular a run
with positive yearly saving but payback strictly above the threshold yields
NO-GO, and a run with payback exactly equal to the threshold yields GO. -/
theorem go_decision_iff (N : ℤ) (km : ℚ) (p : Params) (hN : 1 ≤ N) (hkm : 0 ≤ km) :
    ((estimate N km p).decision = "GO" ↔
      0 < (estimate N km p).delta_fossil_year_eur ∧
        paybackLe (estimate N km p).payback_years_hw_only p.payback_threshold_years = true) ∧
    (0 < (estimate N km p).delta_fossil_year_eur →
      paybackLe (estimate N km p).payback_years_hw_only p.payback_threshold_years = false →
      (estimate N km p).decision = "NO-GO") ∧
    ((estimate N km p).payback_years_hw_only = some p.payback_threshold_years →
      0 < (estimate N km p).delta_fossil_year_eur →
      (estimate N km p).decision = "GO") := by
  simp only [estimate]
  refine ⟨?_, ?_, ?_⟩
  · unfold decision
    split_ifs with h
    · exact iff_of_true rfl h
    · exact iff_of_false (by decide) h
  · intro hd hpb
    unfold decision
    rw [if_neg]
    rintro ⟨-, h2⟩
    rw [hpb] at h2
    cases h2
  · intro hpb hd
    unfold decision
    rw [if_pos]
    refine ⟨hd, ?_⟩
    rw [hpb]
    simp [paybackLe]

/-- Witness for `go_decision_iff` at `N = 11`, `km = 30000`, default
configuration. -/
theorem go_decision_iff_witness :
    ((1 : ℤ) ≤ 11 ∧ (0 : ℚ) ≤ 30000) ∧
    (((estimate 11 30000 defaultParams).decision = "GO" ↔
      0 < (estimate 11 30000 defaultParams).delta_fossil_year_eur ∧
        paybackLe (estimate 11 30000 defaultParams).payback_years_hw_only
          defaultParams.payback_threshold_years = true) ∧
    (0 < (estimate 11 30000 defaultParams).delta_fossil_year_eur →
      paybackLe (estimate 11 30000 defaultParams).payback_years_hw_only
        defaultParams.payback_threshold_years = false →
      (estimate 11 30000 defaultParams).decision = "NO-GO") ∧
    ((estimate 11 30000 defaultParams).payback_years_hw_only =
        some defaultParams.payback_threshold_years →
      0 < (estimate 11 30000 defaultParams).delta_fossil_year_eur →
      (estimate 11 30000 defaultParams).decision = "GO")) :=
  ⟨⟨by decide, by decide⟩, go_decision_iff 11 30000 defaultParams (by decide) (by decide)⟩

/-- C4: `payback_years` equals `capex / delta_fossil_year` when
`delta_fossil_year > 0`, and equals the infinite sentinel (`none`, the
embedding of `float("inf")`) when `delta_fossil_year ≤ 0`. -/
theorem payback_formula_or_infinite (N : ℤ) (km : ℚ) (p : Params) :
    (0 < (estimate N km p).delta_fossil_year_eur →
      (estimate N km p).payback_years_hw_only =
        some ((estimate N km p).capex_eur / (estimate N km p).delta_fossil_year_eur)) ∧
    ((estimate N km p).delta_fossil_year_eur ≤ 0 →
      (estimate N km p).payback_years_hw_only = none) := by
  simp only [estimate]
  unfold payback_years
  constructor
  · intro h
    rw [if_pos h]
  · intro h
    rw [if_neg (not_lt.mpr h)]

/-- A configuration whose diesel fuel economy is zero, so that the diesel
baseline cost vanishes and the yearly saving is negative. -/
def zeroDieselParams : Params := { defaultParams with diesel_km_per_l := 0 }

lemma zeroDiesel_delta_nonpos : delta_fossil_year 11 30000 zeroDieselParams ≤ 0 := by
  unfold delta_fossil_year diesel_cost_year diesel_liters_year ev_energy_cost_year
    kwh_total_year km_total_year
  norm_num [zeroDieselParams, defaultParams]

/-- Witness for `payback_formula_or_infinite`: the finite branch at the
default configuration, and the infinite branch at `zeroDieselParams`. -/
theorem payback_formula_or_infinite_witness :
    (0 < (estimate 11 30000 defaultParams).delta_fossil_year_eur ∧
      (estimate 11 30000 defaultParams).payback_years_hw_only =
        some ((estimate 11 30000 defaultParams).capex_eur /
          (estimate 11 30000 defaultParams).delta_fossil_year_eur)) ∧
    ((estimate 11 30000 zeroDieselParams).delta_fossil_year_eur ≤ 0 ∧
      (estimate 11 30000 zeroDieselParams).payback_years_hw_only = none) := by
  have hpos : 0 < (estimate 11 30000 defaultParams).delta_fossil_year_eur := by
    show (0 : ℚ) < delta_fossil_year 11 30000 defaultParams
    rw [demo_delta]
    norm_num
  exact ⟨⟨hpos, (payback_formula_or_infinite 11 30000 defaultParams).1 hpos⟩,
    ⟨zeroDiesel_delta_nonpos,
      (payback_formula_or_infinite 11 30000 zeroDieselParams).2 zeroDiesel_delta_nonpos⟩⟩

/-- C8: the division guards of the engine map the historically error-prone
cases to defined sentinels: `diesel_liters_year` is `0` when
`diesel_km_per_l` is zero and `km_total_year / diesel_km_per_l` when it is
positive, and `co2_avoided_g_per_km` is `0` when `km_total_year` is zero;
`estimate` is a total function and signals no error. -/
theorem division_guards (N : ℤ) (km : ℚ) (p : Params) :
    (p.diesel_km_per_l = 0 → (estimate N km p).diesel_avoided_liters_year = 0) ∧
    (0 < p.diesel_km_per_l →
      (estimate N km p).diesel_avoided_liters_year =
        (estimate N km p).km_total_year / p.diesel_km_per_l) ∧
    ((estimate N km p).km_total_year = 0 → (estimate N km p).co2_avoided_g_per_km = 0) := by
  simp only [estimate]
  refine ⟨?_, ?_, ?_⟩
  · intro h
    unfold diesel_liters_year
    rw [if_neg (by rw [h]; exact lt_irrefl 0)]
  · intro h
    unfold diesel_liters_year
    rw [if_pos h]
  · intro h
    unfold co2_avoided_g_per_km
    rw [if_neg (by rw [h]; exact lt_irrefl 0)]

/-- Witness for `division_guards`: the zero-rate guard at
`zeroDieselParams`, the positive-rate formula at the default configuration,
and the zero-distance guard at `km = 0`. -/
theorem division_guards_witness :
    (zeroDieselParams.diesel_km_per_l = 0 ∧
      (estimate 11 30000 zeroDieselParams).diesel_avoided_liters_year = 0) ∧
    (0 < defaultParams.diesel_km_per_l ∧
      (estimate 11 30000 defaultParams).diesel_avoided_liters_year =
        (estimate 11 30000 defaultParams).km_total_year / defaultParams.diesel_km_per_l) ∧
    ((estimate 11 0 defaultParams).km_total_year = 0 ∧
      (estimate 11 0 defaultParams).co2_avoided_g_per_km = 0) := by
  have h0 : zeroDieselParams.diesel_km_per_l = 0 := rfl
  have hpos : (0 : ℚ) < defaultParams.diesel_km_per_l := by norm_num [defaultParams]
  have hkm0 : (estimate 11 0 defaultParams).km_total_year = 0 := by
    show km_total_year 11 0 = 0
    norm_num [km_total_year]
  exact ⟨⟨h0, (division_guards 11 30000 zeroDieselParams).1 h0⟩,
    ⟨hpos, (division_guards 11 30000 defaultParams).2.1 hpos⟩,
    ⟨hkm0, (division_guards 11 0 defaultParams).2.2 hkm0⟩⟩

/-- C9: `estimate` is deterministic and stateless: two invocations with
identical fleet size, distance and configuration return results identical
in every field (the embedding is a pure function of exactly these three
arguments, mirroring the source, which reads no other state). -/
theorem estimate_deterministic (N1 N2 : ℤ) (km1 km2 : ℚ) (p1 p2 : Params)
    (hN : N1 = N2) (hkm : km1 = km2) (hp : p1 = p2) :
    estimate N1 km1 p1 = estimate N2 km2 p2 := by
  subst hN
  subst hkm
  subst hp
  rfl

/-- Witness for `estimate_deterministic` at the demo input. -/
theorem estimate_deterministic_witness :
    (11 : ℤ) = 11 ∧ (30000 : ℚ) = 30000 ∧ defaultParams = defaultParams ∧
    estimate 11 30000 defaultParams = estimate 11 30000 defaultParams :=
  ⟨rfl, rfl, rfl, estimate_deterministic 11 11 30000 30000 defaultParams defaultParams rfl rfl rfl⟩

/-- C10: the selected hardware tier label does not depend on the fleet
size: two invocations with the same distance and configuration but
different fleet sizes yield the same `hardware` label, because the tier is
decided solely from `kwh_per_vehicle_day`, which does not involve `N`. -/
theorem tier_independent_of_fleet_size (N1 N2 : ℤ) (km : ℚ) (p : Params)
    (h1 : 1 ≤ N1) (h2 : 1 ≤ N2) :
    (estimate N1 km p).hardware = (estimate N2 km p).hardware ∧
    (estimate N1 km p).kwh_per_vehicle_day = (estimate N2 km p).kwh_per_vehicle_day :=
  ⟨rfl, rfl⟩

/-- Witness for `tier_independent_of_fleet_size` at fleet sizes 5 and 7. -/
theorem tier_independent_of_fleet_size_witness :
    ((1 : ℤ) ≤ 5 ∧ (1 : ℤ) ≤ 7) ∧
    ((estimate 5 30000 defaultParams).hardware = (estimate 7 30000 defaultParams).hardware ∧
      (estimate 5 30000 defaultParams).kwh_per_vehicle_day =
        (estimate 7 30000 defaultParams).kwh_per_vehicle_day) :=
  ⟨⟨by decide, by decide⟩,
    tier_independent_of_fleet_size 5 7 30000 defaultParams (by decide) (by decide)⟩

/-- On every tier, the rotation capacity can be read back from the
reported hardware label: `ac_rotation` for the AC label, `dc_rotation`
otherwise. -/
lemma tier_rotation_by_label (p : Params) (t : Tier) :
    tier_rotation p t =
      if tier_label t = "AC 22kW (eff. 11kW)" then p.ac_rotation else p.dc_rotation := by
  cases t
  · simp [tier_label, tier_rotation]
  · simp [tier_label, tier_rotation]
  · simp [tier_label, tier_rotation]

/-- C2: the station count equals the maximum of the rotation constraint
`ceil(N / tier_rotation)` and the energy constraint
`ceil(sizing_demand_kwh / per_station_daily_kwh)` for the selected tier,
the energy term being `0` when the sizing demand is `0`; consequently the
station count is never below either constraint, and both constituent
values are reported alongside the maximum. -/
theorem station_count_max_constraints (N : ℤ) (km : ℚ) (p : Params)
    (hN : 1 ≤ N) (hkm : 0 ≤ km) (hwd : 0 ≤ p.working_days)
    (hkwh : 0 ≤ p.ev_kwh_per_km) (hpf : 0 ≤ p.peak_factor) :
    (estimate N km p).points =
      max (estimate N km p).by_rotation (estimate N km p).by_energy ∧
    (estimate N km p).by_rotation =
      ⌈(N : ℚ) / (((if (estimate N km p).hardware = "AC 22kW (eff. 11kW)" then
          p.ac_rotation else p.dc_rotation) : ℤ) : ℚ)⌉ ∧
    ((estimate N km p).kwh_total_day_peak = 0 → (estimate N km p).by_energy = 0) ∧
    ((estimate N km p).kwh_total_day_peak ≠ 0 →
      (estimate N km p).by_energy =
        ⌈(estimate N km p).kwh_total_day_peak / (estimate N km p).kwh_per_station_day⌉) ∧
    (estimate N km p).by_rotation ≤ (estimate N km p).points ∧
    (estimate N km p).by_energy ≤ (estimate N km p).points := by
  have hN0 : (0 : ℚ) ≤ (N : ℚ) := by exact_mod_cast le_trans zero_le_one hN
  have hwd0 : (0 : ℚ) ≤ (p.working_days : ℚ) := by exact_mod_cast hwd
  have hpeak : 0 ≤ kwh_total_day_peak N km p := by
    unfold kwh_total_day_peak kwh_total_day_avg kwh_per_vehicle_day km_per_vehicle_day
    exact mul_nonneg (mul_nonneg hN0 (mul_nonneg (div_nonneg hkm hwd0) hkwh)) hpf
  simp only [estimate]
  refine ⟨rfl, ?_, ?_, ?_, le_max_left _ _, le_max_right _ _⟩
  · unfold q_by_rotation
    rw [tier_rotation_by_label]
  · intro h
    unfold q_by_energy
    rw [if_neg (by rw [h]; exact lt_irrefl 0)]
  · intro h
    unfold q_by_energy
    rw [if_pos (lt_of_le_of_ne hpeak (Ne.symm h))]

/-- Witness for `station_count_max_constraints` at the demo input. -/
theorem station_count_max_constraints_witness :
    ((1 : ℤ) ≤ 11 ∧ (0 : ℚ) ≤ 30000 ∧ 0 ≤ defaultParams.working_days ∧
      0 ≤ defaultParams.ev_kwh_per_km ∧ 0 ≤ defaultParams.peak_factor) ∧
    ((estimate 11 30000 defaultParams).points =
      max (estimate 11 30000 defaultParams).by_rotation
        (estimate 11 30000 defaultParams).by_energy ∧
    (estimate 11 30000 defaultParams).by_rotation =
      ⌈(11 : ℚ) / (((if (estimate 11 30000 defaultParams).hardware = "AC 22kW (eff. 11kW)" then
          defaultParams.ac_rotation else defaultParams.dc_rotation) : ℤ) : ℚ)⌉ ∧
    ((estimate 11 30000 defaultParams).kwh_total_day_peak = 0 →
      (estimate 11 30000 defaultParams).by_energy = 0) ∧
    ((estimate 11 30000 defaultParams).kwh_total_day_peak ≠ 0 →
      (estimate 11 30000 defaultParams).by_energy =
        ⌈(estimate 11 30000 defaultParams).kwh_total_day_peak /
          (estimate 11 30000 defaultParams).kwh_per_station_day⌉) ∧
    (estimate 11 30000 defaultParams).by_rotation ≤ (estimate 11 30000 defaultParams).points ∧
    (estimate 11 30000 defaultParams).by_energy ≤ (estimate 11 30000 defaultParams).points) :=
  ⟨⟨by decide, by decide, by decide, by norm_num [defaultParams], by norm_num [defaultParams]⟩,
    station_count_max_constraints 11 30000 defaultParams (by decide) (by decide)
      (by decide) (by norm_num [defaultParams]) (by norm_num [defaultParams])⟩

/-- C3: the hardware tier is a fixed step function of `kwh_per_vehicle_day`
alone: AC for values `≤ 55`, DC-30kW for values in `(55, 90]`, and DC-60kW
for values `> 90`, with 55 and 90 as the exact decision boundaries. -/
theorem tier_threshold_selection (N : ℤ) (km : ℚ) (p : Params) :
    ((estimate N km p).kwh_per_vehicle_day ≤ 55 →
      (estimate N km p).hardware = "AC 22kW (eff. 11kW)") ∧
    (55 < (estimate N km p).kwh_per_vehicle_day →
      (estimate N km p).kwh_per_vehicle_day ≤ 90 →
      (estimate N km p).hardware = "DC 30kW") ∧
    (90 < (estimate N km p).kwh_per_vehicle_day →
      (estimate N km p).hardware = "DC 60kW") := by
  simp only [estimate]
  unfold selected_tier
  refine ⟨?_, ?_, ?_⟩
  · intro h
    rw [if_pos (not_lt.mpr h)]
    rfl
  · intro h1 h2
    rw [if_neg (not_not_intro h1), if_neg (not_lt.mpr h2)]
    rfl
  · intro h
    rw [if_neg (not_not_intro (lt_trans (by norm_num) h)), if_pos h]
    rfl

lemma kwh_pvd_80000 : kwh_per_vehicle_day 80000 defaultParams = 220/3 := by
  norm_num [kwh_per_vehicle_day, km_per_vehicle_day, defaultParams]

lemma kwh_pvd_120000 : kwh_per_vehicle_day 120000 defaultParams = 110 := by
  norm_num [kwh_per_vehicle_day, km_per_vehicle_day, defaultParams]

/-- Witness for `tier_threshold_selection`: the AC branch at 30000 km/yr,
the DC-30kW branch at 80000 km/yr and the DC-60kW branch at 120000 km/yr,
default configuration throughout. -/
theorem tier_threshold_selection_witness :
    ((estimate 11 30000 defaultParams).kwh_per_vehicle_day ≤ 55 ∧
      (estimate 11 30000 defaultParams).hardware = "AC 22kW (eff. 11kW)") ∧
    (55 < (estimate 11 80000 defaultParams).kwh_per_vehicle_day ∧
      (estimate 11 80000 defaultParams).kwh_per_vehicle_day ≤ 90 ∧
      (estimate 11 80000 defaultParams).hardware = "DC 30kW") ∧
    (90 < (estimate 11 120000 defaultParams).kwh_per_vehicle_day ∧
      (estimate 11 120000 defaultParams).hardware = "DC 60kW") := by
  have hac : (estimate 11 30000 defaultParams).kwh_per_vehicle_day ≤ 55 := by
    show kwh_per_vehicle_day 30000 defaultParams ≤ 55
    rw [demo_kwh_per_vehicle_day]
    norm_num
  have hdc1 : 55 < (estimate 11 80000 defaultParams).kwh_per_vehicle_day := by
    show (55 : ℚ) < kwh_per_vehicle_day 80000 defaultParams
    rw [kwh_pvd_80000]
    norm_num
  have hdc2 : (estimate 11 80000 defaultParams).kwh_per_vehicle_day ≤ 90 := by
    show kwh_per_vehicle_day 80000 defaultParams ≤ 90
    rw [kwh_pvd_80000]
    norm_num
  have hdc60 : 90 < (estimate 11 120000 defaultParams).kwh_per_vehicle_day := by
    show (90 : ℚ) < kwh_per_vehicle_day 120000 defaultParams
    rw [kwh_pvd_120000]
    norm_num
  exact ⟨⟨hac, (tier_threshold_selection 11 30000 defaultParams).1 hac⟩,
    ⟨hdc1, hdc2, (tier_threshold_selection 11 80000 defaultParams).2.1 hdc1 hdc2⟩,
    ⟨hdc60, (tier_threshold_selection 11 120000 defaultParams).2.2 hdc60⟩⟩

/-- A configuration making `co2_avoided_tons_year` exactly `1.999`: one
liter of diesel per km and an emission factor of `1.999` kg/L. -/
def truncDemoParams : Params :=
  { defaultParams with diesel_km_per_l := 1, diesel_kgco2_per_l := 1.999 }

lemma truncDemo_co2 : co2_avoided_tons_year 1 1000 truncDemoParams = 1.999 := by
  unfold co2_avoided_tons_year diesel_liters_year km_total_year
  norm_num [truncDemoParams, defaultParams]

lemma truncDemo_trees : trees_equivalent 1 1000 truncDemoParams = 99 := by
  rw [trees_equivalent, truncDemo_co2, ratTrunc,
    if_pos (by norm_num [truncDemoParams, defaultParams])]
  norm_num [truncDemoParams, defaultParams]

/-- C7: `trees_equivalent` is the truncation toward zero of
`co2_avoided_tons_year * trees_per_ton_co2`, which on the engine's
non-negative CO2 values is the floor, never rounding to nearest; in
particular `co2_avoided_tons_year = 1.999` with `trees_per_ton_co2 = 50`
yields 99, not 100. -/
theorem trees_equivalent_truncates (N : ℤ) (km : ℚ) (p : Params)
    (hN : 1 ≤ N) (hkm : 0 ≤ km) (hkg : 0 ≤ p.diesel_kgco2_per_l)
    (ht : 0 ≤ p.trees_per_ton_co2) :
    ((estimate N km p).trees_equivalent =
      ⌊(estimate N km p).co2_avoided_tons_year * (p.trees_per_ton_co2 : ℚ)⌋ ∧
    ((estimate N km p).trees_equivalent : ℚ) ≤
      (estimate N km p).co2_avoided_tons_year * (p.trees_per_ton_co2 : ℚ) ∧
    (estimate N km p).co2_avoided_tons_year * (p.trees_per_ton_co2 : ℚ) <
      (estimate N km p).trees_equivalent + 1) ∧
    ((estimate 1 1000 truncDemoParams).co2_avoided_tons_year = 1.999 ∧
      (estimate 1 1000 truncDemoParams).trees_equivalent = 99) := by
  have hx : 0 ≤ co2_avoided_tons_year N km p * (p.trees_per_ton_co2 : ℚ) := by
    have hl : 0 ≤ diesel_liters_year N km p := by
      unfold diesel_liters_year
      split_ifs with h
      · refine div_nonneg ?_ h.le
        unfold km_total_year
        have hN0 : (0 : ℚ) ≤ (N : ℚ) := by exact_mod_cast le_trans zero_le_one hN
        exact mul_nonneg hN0 hkm
      · exact le_refl 0
    have ht0 : (0 : ℚ) ≤ (p.trees_per_ton_co2 : ℚ) := by exact_mod_cast ht
    unfold co2_avoided_tons_year
    exact mul_nonneg (div_nonneg (mul_nonneg hl hkg) (by norm_num)) ht0
  have heq : trees_equivalent N km p =
      ⌊co2_avoided_tons_year N km p * (p.trees_per_ton_co2 : ℚ)⌋ := by
    unfold trees_equivalent ratTrunc
    rw [if_pos hx]
  refine ⟨⟨heq, ?_, ?_⟩, truncDemo_co2, truncDemo_trees⟩
  · show (trees_equivalent N km p : ℚ) ≤ _
    rw [heq]
    exact Int.floor_le _
  · show _ < (trees_equivalent N km p : ℚ) + 1
    rw [heq]
    exact Int.lt_floor_add_one _

/-- Witness for `trees_equivalent_truncates` at the demo input. -/
theorem trees_equivalent_truncates_witness :
    ((1 : ℤ) ≤ 11 ∧ (0 : ℚ) ≤ 30000 ∧ 0 ≤ defaultParams.diesel_kgco2_per_l ∧
      0 ≤ defaultParams.trees_per_ton_co2) ∧
    (((estimate 11 30000 defaultParams).trees_equivalent =
      ⌊(estimate 11 30000 defaultParams).co2_avoided_tons_year *
        (defaultParams.trees_per_ton_co2 : ℚ)⌋ ∧
    ((estimate 11 30000 defaultParams).trees_equivalent : ℚ) ≤
      (estimate 11 30000 defaultParams).co2_avoided_tons_year *
        (defaultParams.trees_per_ton_co2 : ℚ) ∧
    (estimate 11 30000 defaultParams).co2_avoided_tons_year *
        (defaultParams.trees_per_ton_co2 : ℚ) <
      (estimate 11 30000 defaultParams).trees_equivalent + 1) ∧
    ((estimate 1 1000 truncDemoParams).co2_avoided_tons_year = 1.999 ∧
      (estimate 1 1000 truncDemoParams).trees_equivalent = 99)) :=
  ⟨⟨by decide, by decide, by norm_num [defaultParams], by decide⟩,
    trees_equivalent_truncates 11 30000 defaultParams (by decide) (by decide)
      (by norm_num [defaultParams]) (by decide)⟩

/-- C5 (counterexample): on the code's default configuration the demo
scenario `estimate(11, 30000)` gives `kwh_per_vehicle_day = 27.5` (not
≈ 18.1), an EV energy cost of 15972 EUR (not ≈ 1597), a yearly delta of
22528 EUR (not ≈ 36903) and a payback above 0.6 years (not ≈ 0.50). -/
theorem demo_scenario_spec_figures_false :
    (estimate 11 30000 defaultParams).kwh_per_vehicle_day = 55/2 ∧
    ¬ ((estimate 11 30000 defaultParams).kwh_per_vehicle_day < 19) ∧
    (estimate 11 30000 defaultParams).ev_energy_cost_year_eur = 15972 ∧
    ¬ ((estimate 11 30000 defaultParams).ev_energy_cost_year_eur < 1700) ∧
    (estimate 11 30000 defaultParams).delta_fossil_year_eur = 22528 ∧
    paybackLe (estimate 11 30000 defaultParams).payback_years_hw_only (3/5) = false := by
  refine ⟨demo_kwh_per_vehicle_day, ?_, demo_ev_cost, ?_, demo_delta, ?_⟩
  · show ¬ (kwh_per_vehicle_day 30000 defaultParams < 19)
    rw [demo_kwh_per_vehicle_day]
    norm_num
  · show ¬ (ev_energy_cost_year 11 30000 defaultParams < 1700)
    rw [demo_ev_cost]
    norm_num
  · show paybackLe (payback_years 11 30000 defaultParams) (3/5) = false
    rw [demo_payback]
    simp only [paybackLe, decide_eq_false_iff_not]
    norm_num

/-- C5 (amended): the demo scenario `estimate(11, 30000, Params())` under
the code's actual defaults (240 working days, peak factor 1.25) gives
`kwh_per_vehicle_day = 27.5`, the AC tier, station count
`max(ceil(11/2) = 6, 4) = 6`, capex 18600 EUR, 22000 L of diesel avoided,
diesel cost 38500 EUR, EV energy cost 15972 EUR, delta 22528 EUR/yr,
payback `18600/22528 ≈ 0.83` years, decision GO, 58.3 t of CO2 avoided and
2915 equivalent trees. -/
theorem demo_scenario_values :
    (estimate 11 30000 defaultParams).km_total_year = 330000 ∧
    (estimate 11 30000 defaultParams).kwh_total_year = 72600 ∧
    (estimate 11 30000 defaultParams).kwh_per_vehicle_day = 55/2 ∧
    (estimate 11 30000 defaultParams).hardware = "AC 22kW (eff. 11kW)" ∧
    (estimate 11 30000 defaultParams).by_rotation = 6 ∧
    (estimate 11 30000 defaultParams).by_energy = 4 ∧
    (estimate 11 30000 defaultParams).points = 6 ∧
    (estimate 11 30000 defaultParams).capex_eur = 18600 ∧
    (estimate 11 30000 defaultParams).diesel_avoided_liters_year = 22000 ∧
    (estimate 11 30000 defaultParams).diesel_cost_year_eur = 38500 ∧
    (estimate 11 30000 defaultParams).ev_energy_cost_year_eur = 15972 ∧
    (estimate 11 30000 defaultParams).delta_fossil_year_eur = 22528 ∧
    (estimate 11 30000 defaultParams).payback_years_hw_only = some (2325/2816) ∧
    (estimate 11 30000 defaultParams).decision = "GO" ∧
    (estimate 11 30000 defaultParams).co2_avoided_tons_year = 583/10 ∧
    (estimate 11 30000 defaultParams).trees_equivalent = 2915 := by
  refine ⟨demo_km_total, demo_kwh_total_year, demo_kwh_per_vehicle_day, ?_,
    demo_q_by_rotation, demo_q_by_energy, demo_points, demo_capex, demo_liters,
    demo_diesel_cost, demo_ev_cost, demo_delta, demo_payback, demo_decision,
    demo_co2, demo_trees⟩
  show tier_label (selected_tier 30000 defaultParams) = _
  rw [demo_tier]
  rfl

/-- C6 (counterexample): the configuration structure's actual defaults are
not the earliest variant's values: `peak_factor` defaults to 1.25, not 1.0,
and `working_days` defaults to 240, not 365. -/
theorem default_optional_fields_spec_false :
    ¬ (defaultParams.peak_factor = 1 ∧ defaultParams.working_days = 365) := by
  rintro ⟨h1, h2⟩
  have : (240 : ℤ) = 365 := h2
  exact absurd this (by decide)

/-- C6 (amended): `peak_factor` and `working_days` are defaulted fields of
the configuration structure, with default values 1.25 and 240 (the latest
variant's behaviour, not the earliest variant's 1.0 and 365). -/
theorem default_optional_fields_values :
    defaultParams.peak_factor = 1.25 ∧ defaultParams.working_days = 240 :=
  ⟨rfl, rfl⟩

end JosaGoNoGo
